import Mathlib

/-!
Verification of the opportunity-detection and profit-simulation core of the
Crypto-Arbitrage-Bot repository (scripts bsc_arbitrage.demo.py and
bsc_arbitrage.live.py).

Modelling conventions:
- Python float arithmetic is modelled as exact rational arithmetic over rat.
  Every decision in the scripts is made with comfortable numeric margins, so
  no statement below depends on binary rounding.
- Python division by zero raises; inside get_price_from_router the exception
  is caught and turned into a None result, which the model reflects with an
  explicit zero test.  Rational division by zero (which yields 0 in Lean) is
  never relied upon: theorems carry positivity hypotheses where the source
  would crash.
- Chain responses (getAmountsOut results) are natural numbers (uint256).
- web3 to_wei on a non-negative amount truncates to an integer number of wei,
  modelled with the integer floor of the product by 10 to the 18.
-/

namespace Demo

/-! Constants of bsc_arbitrage.demo.py (SIMULATION VALUES section). -/

def FLASH_LOAN_AMOUNT_USD : ℚ := 1000

def GAS_COST_USD : ℚ := 8/100

def FLASH_LOAN_FEE : ℚ := 9/10000

def MIN_PROFIT_THRESHOLD : ℚ := 1/100

def PANCAKESWAP_FEE : ℚ := 25/10000

def BISWAP_FEE : ℚ := 1/1000

/-- Result record of simulate_flash_arbitrage (the returned 5-tuple). -/
structure SimResult where
  tokens_bought : ℚ
  usd_return : ℚ
  gross_profit : ℚ
  net_profit : ℚ
  roi : ℚ
deriving Repr, DecidableEq

/-- Body of simulate_flash_arbitrage with the module-level constants it reads
(flash loan amount, flash loan fee rate, gas cost) made explicit parameters. -/
def simulate_flash_arbitrage_gen (loan feeRate gas : ℚ)
    (price_buy price_sell buy_fee sell_fee : ℚ) : SimResult :=
  let flash_loan_fee := loan * feeRate
  let effective_capital := loan - flash_loan_fee
  let tokens_bought := (effective_capital / price_buy) * (1 - buy_fee)
  let tokens_after_sell_fee := tokens_bought * (1 - sell_fee)
  let usd_return := tokens_after_sell_fee * price_sell
  let gross_profit := usd_return - loan
  let net_profit := gross_profit - gas
  let roi := (net_profit / loan) * 100
  ⟨tokens_bought, usd_return, gross_profit, net_profit, roi⟩

/-- simulate_flash_arbitrage as written, reading the module constants. -/
def simulate_flash_arbitrage (price_buy price_sell buy_fee sell_fee : ℚ) : SimResult :=
  simulate_flash_arbitrage_gen FLASH_LOAN_AMOUNT_USD FLASH_LOAN_FEE GAS_COST_USD
    price_buy price_sell buy_fee sell_fee

/-- The opportunity dictionary built by check_arbitrage. -/
structure Opp where
  buy_dex : String
  sell_dex : String
  buy_price : ℚ
  sell_price : ℚ
  spread : ℚ
  tokens : ℚ
  usd_out : ℚ
  gross : ℚ
  net : ℚ
  roi : ℚ
deriving Repr, DecidableEq

/-- The dictionary recorded when buying on PancakeSwap and selling on BiSwap. -/
def opp1 (pancake biswap : ℚ) : Opp :=
  let s := simulate_flash_arbitrage pancake biswap PANCAKESWAP_FEE BISWAP_FEE
  { buy_dex := "PancakeSwap", sell_dex := "BiSwap",
    buy_price := pancake, sell_price := biswap,
    spread := ((biswap - pancake) / pancake) * 100,
    tokens := s.tokens_bought, usd_out := s.usd_return,
    gross := s.gross_profit, net := s.net_profit, roi := s.roi }

/-- The dictionary recorded when buying on BiSwap and selling on PancakeSwap. -/
def opp2 (pancake biswap : ℚ) : Opp :=
  let s := simulate_flash_arbitrage biswap pancake BISWAP_FEE PANCAKESWAP_FEE
  { buy_dex := "BiSwap", sell_dex := "PancakeSwap",
    buy_price := biswap, sell_price := pancake,
    spread := ((pancake - biswap) / biswap) * 100,
    tokens := s.tokens_bought, usd_out := s.usd_return,
    gross := s.gross_profit, net := s.net_profit, roi := s.roi }

/-- Body of check_arbitrage with the MIN_PROFIT_THRESHOLD constant it reads
made an explicit parameter.  Direction PancakeSwap to BiSwap is evaluated
first; the second direction replaces the stored best only on a strictly
larger net profit. -/
def check_arbitrage_gen (minProfit pancake biswap : ℚ) : Option Opp :=
  let s1 := simulate_flash_arbitrage pancake biswap PANCAKESWAP_FEE BISWAP_FEE
  let best1 : Option Opp :=
    if minProfit < s1.net_profit then some (opp1 pancake biswap) else none
  let s2 := simulate_flash_arbitrage biswap pancake BISWAP_FEE PANCAKESWAP_FEE
  if minProfit < s2.net_profit then
    match best1 with
    | none => some (opp2 pancake biswap)
    | some o => if o.net < s2.net_profit then some (opp2 pancake biswap) else some o
  else best1

/-- check_arbitrage as written, reading MIN_PROFIT_THRESHOLD. -/
def check_arbitrage (pancake biswap : ℚ) : Option Opp :=
  check_arbitrage_gen MIN_PROFIT_THRESHOLD pancake biswap

/-- get_price_from_router: a router call either fails (None) or returns the
pair amounts, where the first entry echoes the input amount; the price is
their quotient.  A zero input amount would raise ZeroDivisionError, which the
except clause turns into None. -/
def get_price_from_router : Option (ℕ × ℕ) → Option ℚ
  | none => none
  | some a => if a.1 = 0 then none else some ((a.2 : ℚ) / (a.1 : ℚ))

/-- The prices dictionary built by get_wbnb_price_busd.  The only keys the
function can ever insert are pancakeswap and biswap. -/
structure PriceDict where
  pancakeswap : Option ℚ
  biswap : Option ℚ
deriving Repr, DecidableEq

/-- A key is inserted only when the fetched price is truthy, that is, present
and nonzero. -/
def truthyPrice : Option ℚ → Option ℚ
  | some p => if p = 0 then none else some p
  | none => none

/-- The dictionary as populated by the two fetches inside get_wbnb_price_busd. -/
def buildPrices (pancakeRes biswapRes : Option (ℕ × ℕ)) : PriceDict :=
  { pancakeswap := truthyPrice (get_price_from_router pancakeRes),
    biswap := truthyPrice (get_price_from_router biswapRes) }

/-- Number of keys present in the dictionary. -/
def PriceDict.size (d : PriceDict) : ℕ :=
  (if d.pancakeswap.isSome then 1 else 0) + (if d.biswap.isSome then 1 else 0)

/-- get_wbnb_price_busd: None when not connected, otherwise the populated
dictionary when it holds both keys, and None when it does not. -/
def get_wbnb_price_busd (connected : Bool) (pancakeRes biswapRes : Option (ℕ × ℕ)) :
    Option PriceDict :=
  if connected then
    let d := buildPrices pancakeRes biswapRes
    if d.size = 2 then some d else none
  else none

/-- Net profit of the first evaluated direction (buy PancakeSwap, sell
BiSwap). -/
def net1 (pancake biswap : ℚ) : ℚ :=
  (simulate_flash_arbitrage pancake biswap PANCAKESWAP_FEE BISWAP_FEE).net_profit

/-- Net profit of the second evaluated direction (buy BiSwap, sell
PancakeSwap). -/
def net2 (pancake biswap : ℚ) : ℚ :=
  (simulate_flash_arbitrage biswap pancake BISWAP_FEE PANCAKESWAP_FEE).net_profit

/-- Dictionary lookup as performed by the subscript operator; a missing key
raises KeyError, modelled by None at the outer level. -/
def lookupPrice (d : PriceDict) (k : String) : Option ℚ :=
  if k = "pancakeswap" then d.pancakeswap
  else if k = "biswap" then d.biswap
  else none

/-- check_arbitrage applied to a prices dictionary through the two unguarded
key lookups at its top; None models a KeyError escaping the function. -/
def check_arbitrage_onDict (d : PriceDict) : Option (Option Opp) :=
  match lookupPrice d "pancakeswap", lookupPrice d "biswap" with
  | some p, some b => some (check_arbitrage p b)
  | _, _ => none

end Demo

namespace Live

/-! Constants of bsc_arbitrage.live.py (TRADING_CONFIG and the DEX fee
constants read inside find_arbitrage_opportunity). -/

def borrow_amount : ℚ := 1000

def min_profit : ℚ := 1/100

def min_spread_pct : ℚ := 37/100

def flash_loan_fee : ℚ := 0

def gas_cost_usd : ℚ := 8/100

def PANCAKE_FEE : ℚ := 25/10000

def BISWAP_FEE : ℚ := 1/1000

/-- Iteration order of the mainnet router dictionary (insertion order of the
v2_routers table). -/
def router_names : List String := ["pancakeswap", "biswap"]

/-- DEX fee chosen by name, as in the conditional expressions of the loop. -/
def dexFee (name : String) : ℚ := if name = "pancakeswap" then PANCAKE_FEE else BISWAP_FEE

/-- One directional simulation of the live loop body (steps 1 to 4 in the
source comments), with the configuration values as parameters. -/
structure LiveSim where
  tokens_bought : ℚ
  usd_return : ℚ
  gross_profit : ℚ
  net_profit : ℚ
  spread : ℚ
deriving Repr, DecidableEq

/-- The computation performed for one ordered router pair: trade the full
borrowed amount, pay the DEX fees, repay the loan with its fee, subtract the
gas cost, and record the display spread. -/
def liveSim (borrowed feeRate gas buy_fee sell_fee buy_price sell_price : ℚ) : LiveSim :=
  let tokens_bought := (borrowed / buy_price) * (1 - buy_fee)
  let tokens_after_sell_fee := tokens_bought * (1 - sell_fee)
  let usd_return := tokens_after_sell_fee * sell_price
  let dodo_repay := borrowed * (1 + feeRate)
  let gross_profit := usd_return - dodo_repay
  let net_profit := gross_profit - gas
  let spread := ((sell_price - buy_price) / buy_price) * 100
  ⟨tokens_bought, usd_return, gross_profit, net_profit, spread⟩

/-- web3 to_wei on a non-negative amount: integer count of wei. -/
def toWei (x : ℚ) : ℤ := ⌊x * 10^18⌋

/-- Wei conversion with the sign handling of the source (negative values are
converted on their absolute value and negated). -/
def toWeiSigned (x : ℚ) : ℤ := if 0 ≤ x then toWei x else - toWei (-x)

/-- The best_opportunity dictionary built inside the loop. -/
structure LiveOpp where
  buy_router : String
  sell_router : String
  borrow_amount_wei : ℤ
  intermediate_amount : ℤ
  final_amount : ℤ
  spread : ℚ
  estimated_gross_profit : ℤ
  estimated_net_profit : ℤ
  buy_price : ℚ
  sell_price : ℚ
deriving Repr, DecidableEq

/-- The opportunity dictionary recorded for a pair whose simulation is s. -/
def mkLiveOpp (buy sell : String) (s : LiveSim) (buy_price sell_price : ℚ) : LiveOpp :=
  { buy_router := buy, sell_router := sell,
    borrow_amount_wei := toWei borrow_amount,
    intermediate_amount := toWei s.tokens_bought,
    final_amount := toWei s.usd_return,
    spread := s.spread,
    estimated_gross_profit := toWeiSigned s.gross_profit,
    estimated_net_profit := toWeiSigned s.net_profit,
    buy_price := buy_price, sell_price := sell_price }

/-- Return value of find_arbitrage_opportunity. -/
structure FindResult where
  prices : List (String × ℚ)
  spreads : List (String × ℚ)
  profits : List (String × ℤ)
  opportunity : Option LiveOpp
deriving Repr, DecidableEq

/-- Association list lookup, modelling the dictionary membership test and
subscript of wbnb_prices. -/
def lookupQ (l : List (String × ℚ)) (k : String) : Option ℚ :=
  (l.find? (fun kv => kv.1 = k)).map (fun kv => kv.2)

/-- State threaded through the double loop: the spread and profit tables and
the best opportunity so far. -/
structure LoopState where
  spreads : List (String × ℚ)
  profits : List (String × ℤ)
  best : Option LiveOpp
deriving Repr, DecidableEq

/-- Body of the double loop for one ordered pair (buy_router, sell_router). -/
def evalPair (prices : List (String × ℚ)) (st : LoopState) (pair : String × String) :
    LoopState :=
  if pair.1 = pair.2 then st
  else
    match lookupQ prices pair.1, lookupQ prices pair.2 with
    | some buy_price, some sell_price =>
        let s := liveSim borrow_amount flash_loan_fee gas_cost_usd
          (dexFee pair.1) (dexFee pair.2) buy_price sell_price
        let key := pair.1 ++ "_to_" ++ pair.2
        let spreads := st.spreads ++ [(key, s.spread)]
        let profits := st.profits ++ [(key, toWeiSigned s.net_profit)]
        let best :=
          if min_spread_pct < |s.spread| then
            match st.best with
            | none => some (mkLiveOpp pair.1 pair.2 s buy_price sell_price)
            | some o =>
                if |o.spread| < |s.spread| then
                  some (mkLiveOpp pair.1 pair.2 s buy_price sell_price)
                else some o
          else st.best
        ⟨spreads, profits, best⟩
    | _, _ => st

/-- The wbnb_prices dictionary: for each router in order, the price is added
when the mainnet quote is truthy (present and nonzero); the price is the
returned wei amount divided by 10 to the 18 (from_wei). -/
def wbnbPrices (pancakeWei biswapWei : Option ℕ) : List (String × ℚ) :=
  (match pancakeWei with
   | some w => if w ≠ 0 then [("pancakeswap", (w : ℚ) / 10^18)] else []
   | none => []) ++
  (match biswapWei with
   | some w => if w ≠ 0 then [("biswap", (w : ℚ) / 10^18)] else []
   | none => [])

/-- find_arbitrage_opportunity, parameterised by the two mainnet quote
results.  With fewer than two available prices the empty result is returned;
otherwise every ordered pair of distinct routers is evaluated in declaration
order (buy outer, sell inner). -/
def find_arbitrage_opportunity (pancakeWei biswapWei : Option ℕ) : FindResult :=
  let prices := wbnbPrices pancakeWei biswapWei
  if prices.length < 2 then ⟨[], [], [], none⟩
  else
    let pairs := router_names.flatMap (fun b => router_names.map (fun s => (b, s)))
    let st := pairs.foldl (evalPair prices) ⟨[], [], none⟩
    ⟨prices, st.spreads, st.profits, st.best⟩

/-- The simulation of the first evaluated ordered pair (buy pancakeswap,
sell biswap), as a function of the two prices. -/
def sim1 (P B : ℚ) : LiveSim :=
  liveSim borrow_amount flash_loan_fee gas_cost_usd PANCAKE_FEE BISWAP_FEE P B

/-- The simulation of the second evaluated ordered pair (buy biswap, sell
pancakeswap). -/
def sim2 (P B : ℚ) : LiveSim :=
  liveSim borrow_amount flash_loan_fee gas_cost_usd BISWAP_FEE PANCAKE_FEE B P

/-- The best opportunity produced by the double loop when both prices are
available, written out for the two ordered pairs in evaluation order. -/
def bestOf (P B : ℚ) : Option LiveOpp :=
  let best1 : Option LiveOpp :=
    if min_spread_pct < |(sim1 P B).spread| then
      some (mkLiveOpp "pancakeswap" "biswap" (sim1 P B) P B)
    else none
  if min_spread_pct < |(sim2 P B).spread| then
    match best1 with
    | none => some (mkLiveOpp "biswap" "pancakeswap" (sim2 P B) B P)
    | some o =>
        if |o.spread| < |(sim2 P B).spread| then
          some (mkLiveOpp "biswap" "pancakeswap" (sim2 P B) B P)
        else some o
  else best1

end Live

namespace SpecModel

/-- Net profit as the words of claim C2 describe it: the full borrow amount
is the buy-leg principal, the borrow fee is the integer floor of
borrow_amount times borrow_fee_rate, and the net profit is gross profit
minus that fee minus the fixed execution cost.  This definition follows the
claim wording, for comparison against the code model. -/
def claimedNetC2 (borrow feeRate fixedCost pb ps bf sf : ℚ) : ℚ :=
  let intermediate := (borrow / pb) * (1 - bf)
  let final := intermediate * (1 - sf) * ps
  let gross := final - borrow
  let borrow_fee : ℤ := ⌊borrow * feeRate⌋
  gross - (borrow_fee : ℚ) - fixedCost

/-- The property claimed by C9, stated over the live model: the returned
opportunity always beats the spread pre-filter and is spread-maximal, and
some input yields an opportunity with negative estimated net profit. -/
def claimedPropertyC9 : Prop :=
  (∀ pw bw : Option ℕ, ∀ o : Live.LiveOpp,
      (Live.find_arbitrage_opportunity pw bw).opportunity = some o →
      Live.min_spread_pct < |o.spread| ∧
      ∀ kv ∈ (Live.find_arbitrage_opportunity pw bw).spreads, |kv.2| ≤ |o.spread|)
  ∧ (∃ pw bw : Option ℕ, ∃ o : Live.LiveOpp,
      (Live.find_arbitrage_opportunity pw bw).opportunity = some o ∧
      o.estimated_net_profit < 0)

end SpecModel

/-- The concrete opportunity returned by the live model at mainnet quotes of
600 and 610 BUSD per WBNB, used by witness statements. -/
def liveOppAt600x610 : Live.LiveOpp :=
  { buy_router := "pancakeswap", sell_router := "biswap",
    borrow_amount_wei := 10^21,
    intermediate_amount := 1662500000000000000,
    final_amount := 1013110875000000000000,
    spread := 5/3,
    estimated_gross_profit := 13110875000000000000,
    estimated_net_profit := 13030875000000000000,
    buy_price := 600, sell_price := 610 }

/-! Helper lemmas about the demo model. -/

namespace Demo

lemma net_gen_eq (L φ g pb ps bf sf : ℚ) :
    (simulate_flash_arbitrage_gen L φ g pb ps bf sf).net_profit
      = ((L - L * φ) / pb) * (1 - bf) * (1 - sf) * ps - L - g := by
  unfold simulate_flash_arbitrage_gen
  ring

lemma net1_eq (p b : ℚ) :
    net1 p b = (99560564775/100000000) * (b / p) - 100008/100 := by
  unfold net1 simulate_flash_arbitrage
  rw [net_gen_eq]
  unfold FLASH_LOAN_AMOUNT_USD FLASH_LOAN_FEE GAS_COST_USD PANCAKESWAP_FEE BISWAP_FEE
  ring

lemma net2_eq (p b : ℚ) :
    net2 p b = (99560564775/100000000) * (p / b) - 100008/100 := by
  unfold net2 simulate_flash_arbitrage
  rw [net_gen_eq]
  unfold FLASH_LOAN_AMOUNT_USD FLASH_LOAN_FEE GAS_COST_USD PANCAKESWAP_FEE BISWAP_FEE
  ring

lemma opp1_net (p b : ℚ) : (opp1 p b).net = net1 p b := rfl

lemma opp2_net (p b : ℚ) : (opp2 p b).net = net2 p b := rfl

lemma opp1_ne_opp2 (p b p2 b2 : ℚ) : opp1 p b ≠ opp2 p2 b2 := by
  simp [opp1, opp2]

lemma check_eq (θ p b : ℚ) :
    check_arbitrage_gen θ p b =
      if θ < net2 p b then
        if θ < net1 p b then
          if net1 p b < net2 p b then some (opp2 p b) else some (opp1 p b)
        else some (opp2 p b)
      else if θ < net1 p b then some (opp1 p b) else none := by
  simp only [check_arbitrage_gen, net1, net2]
  by_cases h1 : θ < (simulate_flash_arbitrage p b PANCAKESWAP_FEE BISWAP_FEE).net_profit <;>
  by_cases h2 : θ < (simulate_flash_arbitrage b p BISWAP_FEE PANCAKESWAP_FEE).net_profit <;>
  simp [h1, h2, opp1_net, net1]

lemma check_none_iff (θ p b : ℚ) :
    check_arbitrage_gen θ p b = none ↔ net1 p b ≤ θ ∧ net2 p b ≤ θ := by
  rw [check_eq]
  split_ifs with h1 h2 h3
  · exact ⟨False.elim, fun hc => absurd h2 (not_lt.2 hc.1)⟩
  · exact ⟨False.elim, fun hc => absurd h2 (not_lt.2 hc.1)⟩
  · exact ⟨False.elim, fun hc => absurd h1 (not_lt.2 hc.2)⟩
  · exact ⟨False.elim, fun hc => absurd (by assumption : θ < net1 p b) (not_lt.2 hc.1)⟩
  · exact ⟨fun _ => ⟨le_of_not_lt (by assumption), le_of_not_lt h1⟩, fun _ => rfl⟩

lemma check_some_spec (θ p b : ℚ) (o : Opp) (h : check_arbitrage_gen θ p b = some o) :
    (o = opp1 p b ∧ θ < net1 p b) ∨ (o = opp2 p b ∧ θ < net2 p b) := by
  rw [check_eq] at h
  split_ifs at h with h1 h2 h3
  · exact Or.inr ⟨(Option.some.inj h).symm, h1⟩
  · exact Or.inl ⟨(Option.some.inj h).symm, h2⟩
  · exact Or.inr ⟨(Option.some.inj h).symm, h1⟩
  · exact Or.inl ⟨(Option.some.inj h).symm, by assumption⟩

lemma check_opp1_iff (θ p b : ℚ) :
    check_arbitrage_gen θ p b = some (opp1 p b) ↔
      θ < net1 p b ∧ (θ < net2 p b → net2 p b ≤ net1 p b) := by
  rw [check_eq]
  split_ifs with h1 h2 h3
  · constructor
    · intro h; exact absurd (Option.some.inj h).symm (opp1_ne_opp2 p b p b)
    · rintro ⟨-, f⟩; exact absurd h3 (not_lt.2 (f h1))
  · exact ⟨fun _ => ⟨h2, fun _ => le_of_not_lt h3⟩, fun _ => rfl⟩
  · constructor
    · intro h; exact absurd (Option.some.inj h).symm (opp1_ne_opp2 p b p b)
    · rintro ⟨a, -⟩; exact absurd a h2
  · exact ⟨fun _ => ⟨by assumption, fun hh => absurd hh h1⟩, fun _ => rfl⟩
  · exact ⟨False.elim, fun hc => absurd hc.1 (by assumption)⟩

lemma check_opp2_iff (θ p b : ℚ) :
    check_arbitrage_gen θ p b = some (opp2 p b) ↔
      θ < net2 p b ∧ (θ < net1 p b → net1 p b < net2 p b) := by
  rw [check_eq]
  split_ifs with h1 h2 h3
  · exact ⟨fun _ => ⟨h1, fun _ => h3⟩, fun _ => rfl⟩
  · constructor
    · intro h; exact absurd (Option.some.inj h) (opp1_ne_opp2 p b p b)
    · rintro ⟨-, f⟩; exact absurd (f h2) h3
  · exact ⟨fun _ => ⟨h1, fun hh => absurd hh h2⟩, fun _ => rfl⟩
  · constructor
    · intro h; exact absurd (Option.some.inj h) (opp1_ne_opp2 p b p b)
    · rintro ⟨a, -⟩; exact absurd a h1
  · exact ⟨False.elim, fun hc => absurd hc.1 h1⟩

end Demo

/-! Helper lemmas about the live model. -/

namespace Live

lemma liveSim_net_eq (L φ g bf sf bp sp : ℚ) :
    (liveSim L φ g bf sf bp sp).net_profit
      = (L / bp) * (1 - bf) * (1 - sf) * sp - L * (1 + φ) - g := by
  unfold liveSim
  ring

lemma sim1_spread (P B : ℚ) : (sim1 P B).spread = ((B - P) / P) * 100 := rfl

lemma sim2_spread (P B : ℚ) : (sim2 P B).spread = ((P - B) / B) * 100 := rfl

lemma sim1_net_eq (P B : ℚ) :
    (sim1 P B).net_profit = (9965025/10000) * (B / P) - 100008/100 := by
  unfold sim1
  rw [liveSim_net_eq]
  unfold borrow_amount flash_loan_fee gas_cost_usd PANCAKE_FEE BISWAP_FEE
  ring

lemma sim2_net_eq (P B : ℚ) :
    (sim2 P B).net_profit = (9965025/10000) * (P / B) - 100008/100 := by
  unfold sim2
  rw [liveSim_net_eq]
  unfold borrow_amount flash_loan_fee gas_cost_usd PANCAKE_FEE BISWAP_FEE
  ring

lemma net_pos_of_spread1 (P B : ℚ) (hP : 0 < P)
    (h : min_spread_pct < (sim1 P B).spread) : 0 < (sim1 P B).net_profit := by
  rw [sim1_spread] at h
  rw [sim1_net_eq]
  unfold min_spread_pct at h
  have h3 : (37/10000 : ℚ) < (B - P) / P := by linarith
  have h4 : (37/10000 : ℚ) * P < B - P := (lt_div_iff₀ hP).mp h3
  have h5 : (10037/10000 : ℚ) < B / P := (lt_div_iff₀ hP).mpr (by linarith)
  linarith

lemma net_pos_of_spread2 (P B : ℚ) (hB : 0 < B)
    (h : min_spread_pct < (sim2 P B).spread) : 0 < (sim2 P B).net_profit := by
  rw [sim2_spread] at h
  rw [sim2_net_eq]
  unfold min_spread_pct at h
  have h3 : (37/10000 : ℚ) < (P - B) / B := by linarith
  have h4 : (37/10000 : ℚ) * B < P - B := (lt_div_iff₀ hB).mp h3
  have h5 : (10037/10000 : ℚ) < P / B := (lt_div_iff₀ hB).mpr (by linarith)
  linarith

lemma abs_sim2_lt_abs_sim1 (P B : ℚ) (hP : 0 < P) (hB : 0 < B) (hlt : P < B) :
    |(sim2 P B).spread| < |(sim1 P B).spread| := by
  rw [sim1_spread, sim2_spread]
  have hBP : 0 < B - P := by linarith
  have hs1 : 0 < ((B - P) / P) * 100 := by positivity
  have hs2 : ((P - B) / B) * 100 < 0 := by
    have hneg : (P - B) / B < 0 := div_neg_of_neg_of_pos (by linarith) hB
    linarith
  rw [abs_of_pos hs1, abs_of_neg hs2]
  have key : (B - P) / B < (B - P) / P := div_lt_div_of_pos_left hBP hP hlt
  have e : (P - B) / B = -((B - P) / B) := by ring
  linarith [key, e]

lemma abs_sim1_lt_abs_sim2 (P B : ℚ) (hP : 0 < P) (hB : 0 < B) (hlt : B < P) :
    |(sim1 P B).spread| < |(sim2 P B).spread| := by
  rw [sim1_spread, sim2_spread]
  have hPB : 0 < P - B := by linarith
  have hs2 : 0 < ((P - B) / B) * 100 := by positivity
  have hs1 : ((B - P) / P) * 100 < 0 := by
    have hneg : (B - P) / P < 0 := div_neg_of_neg_of_pos (by linarith) hP
    linarith
  rw [abs_of_neg hs1, abs_of_pos hs2]
  have key : (P - B) / P < (P - B) / B := div_lt_div_of_pos_left hPB hB hlt
  have e : (B - P) / P = -((P - B) / P) := by ring
  linarith [key, e]

lemma mkLiveOpp_spread (buy sell : String) (s : LiveSim) (bp sp : ℚ) :
    (mkLiveOpp buy sell s bp sp).spread = s.spread := rfl

lemma mkLiveOpp_net (buy sell : String) (s : LiveSim) (bp sp : ℚ) :
    (mkLiveOpp buy sell s bp sp).estimated_net_profit = toWeiSigned s.net_profit := rfl

lemma toWeiSigned_nonneg (x : ℚ) (hx : 0 ≤ x) : 0 ≤ toWeiSigned x := by
  unfold toWeiSigned toWei
  rw [if_pos hx]
  exact Int.floor_nonneg.mpr (by positivity)

lemma bestOf_spec (P B : ℚ) (hP : 0 < P) (hB : 0 < B) (o : LiveOpp)
    (h : bestOf P B = some o) :
    (o = mkLiveOpp "pancakeswap" "biswap" (sim1 P B) P B
       ∧ min_spread_pct < (sim1 P B).spread
       ∧ |(sim2 P B).spread| ≤ |(sim1 P B).spread|)
  ∨ (o = mkLiveOpp "biswap" "pancakeswap" (sim2 P B) B P
       ∧ min_spread_pct < (sim2 P B).spread
       ∧ |(sim1 P B).spread| ≤ |(sim2 P B).spread|) := by
  have hs1pos : P < B → 0 < (sim1 P B).spread := by
    intro hpb
    rw [sim1_spread]
    have hd : 0 < (B - P) / P := div_pos (by linarith) hP
    linarith
  have hs2pos : B < P → 0 < (sim2 P B).spread := by
    intro hpb
    rw [sim2_spread]
    have hd : 0 < (P - B) / B := div_pos (by linarith) hB
    linarith
  by_cases c2 : min_spread_pct < |(sim2 P B).spread| <;>
    by_cases c1 : min_spread_pct < |(sim1 P B).spread|
  · simp only [bestOf, c1, c2, if_true, ite_true] at h
    rw [mkLiveOpp_spread] at h
    by_cases hrep : |(sim1 P B).spread| < |(sim2 P B).spread|
    · simp only [hrep, ite_true, Option.some.injEq] at h
      rcases lt_trichotomy P B with hpb | rfl | hpb
      · exact absurd hrep (not_lt.2 (abs_sim2_lt_abs_sim1 P B hP hB hpb).le)
      · rw [sim1_spread, sub_self, zero_div, zero_mul, abs_zero] at c1
        exact absurd c1 (by unfold min_spread_pct; norm_num)
      · exact Or.inr ⟨h.symm, by rwa [abs_of_pos (hs2pos hpb)] at c2, hrep.le⟩
    · simp only [hrep, ite_false, if_false, Option.some.injEq] at h
      rcases lt_trichotomy P B with hpb | rfl | hpb
      · exact Or.inl ⟨h.symm, by rwa [abs_of_pos (hs1pos hpb)] at c1, not_lt.1 hrep⟩
      · rw [sim1_spread, sub_self, zero_div, zero_mul, abs_zero] at c1
        exact absurd c1 (by unfold min_spread_pct; norm_num)
      · exact absurd (abs_sim1_lt_abs_sim2 P B hP hB hpb) hrep
  · simp only [bestOf, c1, c2, if_true, ite_true, ite_false, if_false,
      Option.some.injEq] at h
    rcases lt_trichotomy P B with hpb | rfl | hpb
    · exact absurd (lt_trans c2 (abs_sim2_lt_abs_sim1 P B hP hB hpb)) c1
    · rw [sim2_spread, sub_self, zero_div, zero_mul, abs_zero] at c2
      exact absurd c2 (by unfold min_spread_pct; norm_num)
    · exact Or.inr ⟨h.symm, by rwa [abs_of_pos (hs2pos hpb)] at c2,
        (not_lt.1 c1).trans c2.le⟩
  · simp only [bestOf, c1, c2, if_true, ite_true, ite_false, if_false,
      Option.some.injEq] at h
    rcases lt_trichotomy P B with hpb | rfl | hpb
    · exact Or.inl ⟨h.symm, by rwa [abs_of_pos (hs1pos hpb)] at c1,
        (not_lt.1 c2).trans c1.le⟩
    · rw [sim1_spread, sub_self, zero_div, zero_mul, abs_zero] at c1
      exact absurd c1 (by unfold min_spread_pct; norm_num)
    · exact absurd (lt_trans c1 (abs_sim1_lt_abs_sim2 P B hP hB hpb)) c2
  · simp only [bestOf, c1, c2, ite_false, if_false] at h
    exact Option.noConfusion h

lemma wbnbPrices_some (p b : ℕ) (hp : p ≠ 0) (hb : b ≠ 0) :
    wbnbPrices (some p) (some b)
      = [("pancakeswap", (p : ℚ) / 10^18), ("biswap", (b : ℚ) / 10^18)] := by
  simp [wbnbPrices, hp, hb]

lemma find_empty_of_short (pw bw : Option ℕ)
    (hshort : (wbnbPrices pw bw).length < 2) :
    find_arbitrage_opportunity pw bw = ⟨[], [], [], none⟩ := by
  unfold find_arbitrage_opportunity
  rw [if_pos hshort]

lemma wbnbPrices_length_lt_two (pw bw : Option ℕ)
    (hcase : pw = none ∨ pw = some 0 ∨ bw = none ∨ bw = some 0) :
    (wbnbPrices pw bw).length < 2 := by
  rcases hcase with rfl | rfl | rfl | rfl
  · cases bw <;> simp [wbnbPrices] <;> split_ifs <;> simp
  · cases bw <;> simp [wbnbPrices] <;> split_ifs <;> simp
  · cases pw <;> simp [wbnbPrices] <;> split_ifs <;> simp
  · cases pw <;> simp [wbnbPrices] <;> split_ifs <;> simp

lemma find_eq (p b : ℕ) (hp : p ≠ 0) (hb : b ≠ 0) :
    find_arbitrage_opportunity (some p) (some b) =
      ⟨[("pancakeswap", (p : ℚ) / 10^18), ("biswap", (b : ℚ) / 10^18)],
       [("pancakeswap_to_biswap", (sim1 ((p : ℚ) / 10^18) ((b : ℚ) / 10^18)).spread),
        ("biswap_to_pancakeswap", (sim2 ((p : ℚ) / 10^18) ((b : ℚ) / 10^18)).spread)],
       [("pancakeswap_to_biswap",
          toWeiSigned (sim1 ((p : ℚ) / 10^18) ((b : ℚ) / 10^18)).net_profit),
        ("biswap_to_pancakeswap",
          toWeiSigned (sim2 ((p : ℚ) / 10^18) ((b : ℚ) / 10^18)).net_profit)],
       bestOf ((p : ℚ) / 10^18) ((b : ℚ) / 10^18)⟩ := by
  unfold find_arbitrage_opportunity
  rw [wbnbPrices_some p b hp hb]
  rfl

lemma find_opp_spec (pw bw : Option ℕ) (o : LiveOpp)
    (h : (find_arbitrage_opportunity pw bw).opportunity = some o) :
    min_spread_pct < |o.spread|
    ∧ (∀ kv ∈ (find_arbitrage_opportunity pw bw).spreads, |kv.2| ≤ |o.spread|)
    ∧ 0 ≤ o.estimated_net_profit := by
  rcases pw with _ | p
  · rw [find_empty_of_short _ _ (wbnbPrices_length_lt_two _ _ (Or.inl rfl))] at h
    exact Option.noConfusion h
  · by_cases hp : p = 0
    · subst hp
      rw [find_empty_of_short _ _ (wbnbPrices_length_lt_two _ _ (Or.inr (Or.inl rfl)))] at h
      exact Option.noConfusion h
    · rcases bw with _ | b
      · rw [find_empty_of_short _ _
          (wbnbPrices_length_lt_two _ _ (Or.inr (Or.inr (Or.inl rfl))))] at h
        exact Option.noConfusion h
      · by_cases hb : b = 0
        · subst hb
          rw [find_empty_of_short _ _
            (wbnbPrices_length_lt_two _ _ (Or.inr (Or.inr (Or.inr rfl))))] at h
          exact Option.noConfusion h
        · rw [find_eq p b hp hb] at h ⊢
          have hP : 0 < (p : ℚ) / 10^18 := by
            have : 0 < (p : ℚ) := by exact_mod_cast Nat.pos_of_ne_zero hp
            positivity
          have hB : 0 < (b : ℚ) / 10^18 := by
            have : 0 < (b : ℚ) := by exact_mod_cast Nat.pos_of_ne_zero hb
            positivity
          rcases bestOf_spec _ _ hP hB o h with ⟨ho, hsp, hother⟩ | ⟨ho, hsp, hother⟩
          · subst ho
            refine ⟨lt_of_lt_of_le hsp (le_abs_self _), ?_, ?_⟩
            · intro kv hkv
              rw [mkLiveOpp_spread]
              rcases List.mem_pair.mp hkv with rfl | rfl
              · exact le_refl _
              · exact hother
            · rw [mkLiveOpp_net]
              exact toWeiSigned_nonneg _ (net_pos_of_spread1 _ _ hP hsp).le
          · subst ho
            refine ⟨lt_of_lt_of_le hsp (le_abs_self _), ?_, ?_⟩
            · intro kv hkv
              rw [mkLiveOpp_spread]
              rcases List.mem_pair.mp hkv with rfl | rfl
              · exact hother
              · exact le_refl _
            · rw [mkLiveOpp_net]
              exact toWeiSigned_nonneg _ (net_pos_of_spread2 _ _ hB hsp).le

end Live

/-! Concrete evaluation helpers. -/

namespace Live

lemma toWei_eq (x : ℚ) (n : ℤ) (h : x * 10^18 = (n : ℚ)) : toWei x = n := by
  unfold toWei
  rw [h, Int.floor_intCast]

lemma toWeiSigned_eq (x : ℚ) (n : ℤ) (hx : 0 ≤ x) (h : x * 10^18 = (n : ℚ)) :
    toWeiSigned x = n := by
  unfold toWeiSigned
  rw [if_pos hx]
  exact toWei_eq x n h

lemma sim1_fields (P B : ℚ) :
    (sim1 P B).tokens_bought = (1000 / P) * (1 - 25/10000)
    ∧ (sim1 P B).usd_return = (1000 / P) * (1 - 25/10000) * (1 - 1/1000) * B
    ∧ (sim1 P B).gross_profit = (1000 / P) * (1 - 25/10000) * (1 - 1/1000) * B - 1000
    ∧ (sim1 P B).net_profit
        = (1000 / P) * (1 - 25/10000) * (1 - 1/1000) * B - 1000 - 8/100 := by
  refine ⟨rfl, ?_, ?_, ?_⟩ <;>
    · show _ = _
      unfold sim1 liveSim borrow_amount flash_loan_fee gas_cost_usd PANCAKE_FEE BISWAP_FEE
      ring

lemma sim1_600_610 :
    (sim1 600 610).tokens_bought = 133/80
    ∧ (sim1 600 610).usd_return = 8104887/8000
    ∧ (sim1 600 610).gross_profit = 104887/8000
    ∧ (sim1 600 610).net_profit = 104247/8000
    ∧ (sim1 600 610).spread = 5/3 := by
  obtain ⟨h1, h2, h3, h4⟩ := sim1_fields 600 610
  refine ⟨?_, ?_, ?_, ?_, ?_⟩
  · rw [h1]; norm_num
  · rw [h2]; norm_num
  · rw [h3]; norm_num
  · rw [h4]; norm_num
  · rw [sim1_spread]; norm_num

lemma bestOf_600_610 : bestOf 600 610 = some liveOppAt600x610 := by
  obtain ⟨ht, hu, hg, hn, hs⟩ := sim1_600_610
  have hs2 : (sim2 600 610).spread = -100/61 := by
    rw [sim2_spread]; norm_num
  have hc1 : min_spread_pct < |(sim1 600 610).spread| := by
    rw [hs]; unfold min_spread_pct
    rw [abs_of_pos (by norm_num : (0:ℚ) < 5/3)]
    norm_num
  have hc2 : ¬ (|(sim1 600 610).spread| < |(sim2 600 610).spread|) := by
    rw [hs, hs2]
    rw [abs_of_pos (by norm_num : (0:ℚ) < 5/3), abs_of_neg (by norm_num : (-100/61 : ℚ) < 0)]
    norm_num
  have hfields : mkLiveOpp "pancakeswap" "biswap" (sim1 600 610) 600 610
      = liveOppAt600x610 := by
    unfold mkLiveOpp liveOppAt600x610
    refine LiveOpp.mk.injEq .. |>.mpr ?_
    refine ⟨rfl, rfl, ?_, ?_, ?_, ?_, ?_, ?_, rfl, rfl⟩
    · exact toWei_eq _ _ (by unfold borrow_amount; norm_num)
    · rw [ht]; exact toWei_eq _ _ (by norm_num)
    · rw [hu]; exact toWei_eq _ _ (by norm_num)
    · rw [hs]
    · rw [hg]; exact toWeiSigned_eq _ _ (by norm_num) (by norm_num)
    · rw [hn]; exact toWeiSigned_eq _ _ (by norm_num) (by norm_num)
  unfold bestOf
  rw [if_pos hc1]
  split_ifs with hc2on
  · show (if |(mkLiveOpp "pancakeswap" "biswap" (sim1 600 610) 600 610).spread|
          < |(sim2 600 610).spread| then
        some (mkLiveOpp "biswap" "pancakeswap" (sim2 600 610) 610 600)
      else some (mkLiveOpp "pancakeswap" "biswap" (sim1 600 610) 600 610))
      = some liveOppAt600x610
    rw [mkLiveOpp_spread, if_neg hc2, hfields]
  · show some (mkLiveOpp "pancakeswap" "biswap" (sim1 600 610) 600 610)
      = some liveOppAt600x610
    rw [hfields]

end Live

namespace Live

lemma bestOf_1000_100365 : bestOf 1000 (20073/20) = none := by
  have hc1 : ¬ (min_spread_pct < |(sim1 1000 (20073/20)).spread|) := by
    rw [sim1_spread]
    have e : ((20073/20 - 1000) / 1000) * 100 = (73/200 : ℚ) := by norm_num
    rw [e, abs_of_pos (by norm_num : (0:ℚ) < 73/200)]
    unfold min_spread_pct
    norm_num
  have hc2 : ¬ (min_spread_pct < |(sim2 1000 (20073/20)).spread|) := by
    rw [sim2_spread]
    have e : ((1000 - 20073/20) / (20073/20)) * 100 = (-7300/20073 : ℚ) := by norm_num
    rw [e, abs_of_neg (by norm_num : (-7300/20073 : ℚ) < 0)]
    unfold min_spread_pct
    norm_num
  unfold bestOf
  rw [if_neg hc1, if_neg hc2]

lemma cast_wei_1000 : ((10^21 : ℕ) : ℚ) / 10^18 = 1000 := by
  norm_num

lemma cast_wei_100365 : ((100365 * 10^16 : ℕ) : ℚ) / 10^18 = 20073/20 := by
  norm_num

lemma cast_wei_600 : ((600 * 10^18 : ℕ) : ℚ) / 10^18 = 600 := by
  norm_num

lemma cast_wei_610 : ((610 * 10^18 : ℕ) : ℚ) / 10^18 = 610 := by
  norm_num

lemma find_600_610_opp :
    (find_arbitrage_opportunity (some (600 * 10^18)) (some (610 * 10^18))).opportunity
      = some liveOppAt600x610 := by
  rw [find_eq _ _ (by norm_num) (by norm_num)]
  show bestOf (((600 * 10^18 : ℕ) : ℚ) / 10^18) (((610 * 10^18 : ℕ) : ℚ) / 10^18)
      = some liveOppAt600x610
  rw [cast_wei_600, cast_wei_610]
  exact bestOf_600_610

end Live

/-! Claim theorems. -/

/-- C1 (counterexample): at mainnet quotes of 1000 and 1003.65 BUSD per WBNB
the live bot evaluates a simulation whose net profit (about 0.0597 BUSD)
strictly exceeds min_profit, yet it selects no opportunity, because
selection is driven by the spread pre-filter (0.365 percent is below 0.37)
and never by net profit. -/
theorem c1_live_counterexample :
    Live.min_profit < (Live.sim1 1000 (20073/20)).net_profit
    ∧ (Live.find_arbitrage_opportunity (some (10^21)) (some (100365 * 10^16))).prices
        = [("pancakeswap", 1000), ("biswap", 20073/20)]
    ∧ (Live.find_arbitrage_opportunity (some (10^21)) (some (100365 * 10^16))).opportunity
        = none := by
  refine ⟨?_, ?_, ?_⟩
  · rw [Live.sim1_net_eq]
    unfold Live.min_profit
    norm_num
  · rw [Live.find_eq _ _ (by norm_num) (by norm_num)]
    show [("pancakeswap", ((10^21 : ℕ) : ℚ) / 10^18),
          ("biswap", ((100365 * 10^16 : ℕ) : ℚ) / 10^18)] = _
    rw [Live.cast_wei_1000, Live.cast_wei_100365]
  · rw [Live.find_eq _ _ (by norm_num) (by norm_num)]
    show Live.bestOf (((10^21 : ℕ) : ℚ) / 10^18) (((100365 * 10^16 : ℕ) : ℚ) / 10^18) = none
    rw [Live.cast_wei_1000, Live.cast_wei_100365]
    exact Live.bestOf_1000_100365

/-- C1 (amended): in the demo script, selection does follow the claimed
invariant: an opportunity is returned exactly when some direction strictly
beats the threshold, the returned direction strictly maximises net profit
among those beating the threshold, and on a tie the first evaluated
direction (buy PancakeSwap, sell BiSwap) is kept.  The live bot instead
selects by largest absolute spread (see the counterexample). -/
theorem c1_demo_selection (θ p b : ℚ) :
    (Demo.check_arbitrage_gen θ p b = none ↔ Demo.net1 p b ≤ θ ∧ Demo.net2 p b ≤ θ)
    ∧ (Demo.check_arbitrage_gen θ p b = some (Demo.opp1 p b) ↔
        θ < Demo.net1 p b ∧ (θ < Demo.net2 p b → Demo.net2 p b ≤ Demo.net1 p b))
    ∧ (Demo.check_arbitrage_gen θ p b = some (Demo.opp2 p b) ↔
        θ < Demo.net2 p b ∧ (θ < Demo.net1 p b → Demo.net1 p b < Demo.net2 p b)) :=
  ⟨Demo.check_none_iff θ p b, Demo.check_opp1_iff θ p b, Demo.check_opp2_iff θ p b⟩

/-- C1 (witness): at prices 600 and 610 the demo selects the first
direction, certified through the selection characterisation. -/
theorem c1_demo_selection_witness :
    Demo.check_arbitrage_gen (1/100) 600 610 = some (Demo.opp1 600 610) := by
  refine (c1_demo_selection (1/100) 600 610).2.1.mpr ⟨?_, ?_⟩
  · rw [Demo.net1_eq]
    norm_num
  · rw [Demo.net1_eq, Demo.net2_eq]
    intro hcon
    norm_num at hcon

/-- C2 (counterexample): at prices 600 and 610 the demo net profit differs
from the value prescribed by the claim (full borrow amount as buy principal,
floored borrow fee deducted from gross profit): the code yields about
12.119 while the claimed formula yields about 13.031, because the code
subtracts the exact (unfloored) flash loan fee from the principal before
trading. -/
theorem c2_counterexample :
    Demo.net1 600 610
      ≠ SpecModel.claimedNetC2 1000 (9/10000) (8/100) 600 610
          Demo.PANCAKESWAP_FEE Demo.BISWAP_FEE := by
  have hfloor : (⌊(1000 : ℚ) * (9/10000)⌋ : ℤ) = 0 := by
    have e : (1000 : ℚ) * (9/10000) = 9/10 := by norm_num
    rw [e]
    rw [Int.floor_eq_zero_iff]
    constructor
    · norm_num
    · norm_num
  have hclaimed : SpecModel.claimedNetC2 1000 (9/10000) (8/100) 600 610
      Demo.PANCAKESWAP_FEE Demo.BISWAP_FEE = 104247/8000 := by
    unfold SpecModel.claimedNetC2 Demo.PANCAKESWAP_FEE Demo.BISWAP_FEE
    rw [hfloor]
    norm_num
  rw [Demo.net1_eq, hclaimed]
  norm_num

/-- C2 (amended): the demo deducts the exact, unfloored borrow fee from the
principal before the buy leg, so net profit equals trading the reduced
amount L minus L times the fee rate, with no separate fee term; the live bot
trades the full borrow amount and charges the exact fee through the
repayment L times one plus the fee rate.  Neither script floors the fee. -/
theorem c2_fee_structure (L φ g pb ps bf sf : ℚ) :
    (Demo.simulate_flash_arbitrage_gen L φ g pb ps bf sf).net_profit
      = ((L - L * φ) / pb) * (1 - bf) * (1 - sf) * ps - L - g
    ∧ (Live.liveSim L φ g bf sf pb ps).net_profit
      = (L / pb) * (1 - bf) * (1 - sf) * ps - L * (1 + φ) - g :=
  ⟨Demo.net_gen_eq L φ g pb ps bf sf, Live.liveSim_net_eq L φ g bf sf pb ps⟩

lemma Demo.price_2e18p1 :
    Demo.get_price_from_router (some (10^18, 2 * 10^18 + 1))
      = some ((2 * 10^18 + 1 : ℚ) / 10^18) := by
  simp only [Demo.get_price_from_router]
  rw [if_neg (by norm_num : ¬ ((10^18 : ℕ), 2 * 10^18 + 1).1 = 0)]
  norm_num

/-- C3 (counterexample): the intermediate amount bought at prices 600 and
610 equals 1328803/800000, which is not an integer, so amount arithmetic is
not carried out in integer smallest-unit space; moreover the price fed to
the decision logic is itself a quotient: a quote of 2 times 10 to the 18
plus 1 wei for one whole token yields a non-integer price at decision
time. -/
theorem c3_counterexample :
    (¬ ∃ n : ℤ,
      (Demo.simulate_flash_arbitrage 600 610 Demo.PANCAKESWAP_FEE
        Demo.BISWAP_FEE).tokens_bought = (n : ℚ))
    ∧ (¬ ∃ n : ℤ,
      Demo.get_price_from_router (some (10^18, 2 * 10^18 + 1)) = some ((n : ℚ))) := by
  constructor
  · rintro ⟨n, hn⟩
    have htok : (Demo.simulate_flash_arbitrage 600 610 Demo.PANCAKESWAP_FEE
        Demo.BISWAP_FEE).tokens_bought = 1328803/800000 := by
      show ((Demo.FLASH_LOAN_AMOUNT_USD - Demo.FLASH_LOAN_AMOUNT_USD * Demo.FLASH_LOAN_FEE)
          / 600) * (1 - Demo.PANCAKESWAP_FEE) = 1328803/800000
      unfold Demo.FLASH_LOAN_AMOUNT_USD Demo.FLASH_LOAN_FEE Demo.PANCAKESWAP_FEE
      norm_num
    rw [htok] at hn
    have : (800000 : ℚ) * (n : ℚ) = 1328803 := by
      rw [← hn]
      norm_num
    have hint : (800000 : ℤ) * n = 1328803 := by exact_mod_cast this
    omega
  · rintro ⟨n, hn⟩
    rw [Demo.price_2e18p1] at hn
    have hq := Option.some.inj hn
    have : ((2 * 10^18 + 1 : ℕ) : ℚ) = ((10^18 : ℕ) : ℚ) * (n : ℚ) := by
      rw [← hq]
      field_simp
    have hint : (2 * 10^18 + 1 : ℤ) = (10^18 : ℤ) * n := by exact_mod_cast this
    omega

/-- C3 (amended): amount arithmetic is exact real (float in the source,
rational in the model) on human-unit quantities: the prices that drive all
decisions are the wei quotes divided by 10 to the 18 already at quote time,
and intermediate amounts are in general non-integral. -/
theorem c3_rational_amounts (pw bw : ℕ) (hp : pw ≠ 0) (hb : bw ≠ 0) :
    (Live.find_arbitrage_opportunity (some pw) (some bw)).prices
      = [("pancakeswap", (pw : ℚ) / 10^18), ("biswap", (bw : ℚ) / 10^18)]
    ∧ Demo.get_price_from_router (some (10^18, 2 * 10^18 + 1))
      = some ((2 * 10^18 + 1 : ℚ) / 10^18) := by
  constructor
  · rw [Live.find_eq _ _ hp hb]
  · exact Demo.price_2e18p1

/-- C3 (witness): the amended statement instantiated at one-wei quotes. -/
theorem c3_rational_amounts_witness :
    (Live.find_arbitrage_opportunity (some 1) (some 1)).prices
      = [("pancakeswap", ((1 : ℕ) : ℚ) / 10^18), ("biswap", ((1 : ℕ) : ℚ) / 10^18)]
    ∧ Demo.get_price_from_router (some (10^18, 2 * 10^18 + 1))
      = some ((2 * 10^18 + 1 : ℚ) / 10^18) :=
  c3_rational_amounts 1 1 (by norm_num) (by norm_num)

/-- C4 (confirmed): with fewer than two available venue quotes the live
evaluation returns the empty result (empty price, spread and profit tables
and no opportunity), and the demo fetcher returns None rather than a
partial result; both are total functions, so no error is raised. -/
theorem c4_insufficient_quotes (pw bw : Option ℕ) (pr br : Option (ℕ × ℕ)) (c : Bool)
    (hlive : (Live.wbnbPrices pw bw).length < 2)
    (hdemo : (Demo.buildPrices pr br).size < 2) :
    Live.find_arbitrage_opportunity pw bw = ⟨[], [], [], none⟩
    ∧ Demo.get_wbnb_price_busd c pr br = none := by
  refine ⟨Live.find_empty_of_short pw bw hlive, ?_⟩
  cases c
  · rfl
  · show (if (Demo.buildPrices pr br).size = 2
        then some (Demo.buildPrices pr br) else none) = none
    exact if_neg (by omega)

/-- C4 (witness): one quote missing and the other zero. -/
theorem c4_insufficient_quotes_witness :
    Live.find_arbitrage_opportunity none (some 0) = ⟨[], [], [], none⟩
    ∧ Demo.get_wbnb_price_busd true none none = none :=
  c4_insufficient_quotes none (some 0) none none true
    (Live.wbnbPrices_length_lt_two none (some 0) (Or.inl rfl))
    (by decide)

/-- C5 (confirmed): the demo threshold is a strict lower bound: when both
evaluated directions land exactly on the threshold nothing is selected, and
any selected opportunity has net profit strictly above the threshold. -/
theorem c5_exclusive_threshold (θ p b : ℚ) :
    ((Demo.net1 p b = θ) → (Demo.net2 p b = θ) →
      Demo.check_arbitrage_gen θ p b = none)
    ∧ (∀ o, Demo.check_arbitrage_gen θ p b = some o → θ < o.net) := by
  constructor
  · intro h1 h2
    exact (Demo.check_none_iff θ p b).mpr ⟨le_of_eq h1, le_of_eq h2⟩
  · intro o ho
    rcases Demo.check_some_spec θ p b o ho with ⟨rfl, hlt⟩ | ⟨rfl, hlt⟩
    · rw [Demo.opp1_net]; exact hlt
    · rw [Demo.opp2_net]; exact hlt

/-- C5 (witness): at equal prices both directions net exactly the value
-4.47435225, and with the threshold set to that value no opportunity is
selected. -/
theorem c5_exclusive_threshold_witness :
    Demo.net1 1 1 = -(17897409/4000000)
    ∧ Demo.net2 1 1 = -(17897409/4000000)
    ∧ Demo.check_arbitrage_gen (-(17897409/4000000)) 1 1 = none := by
  have h1 : Demo.net1 1 1 = -(17897409/4000000) := by
    rw [Demo.net1_eq]; norm_num
  have h2 : Demo.net2 1 1 = -(17897409/4000000) := by
    rw [Demo.net2_eq]; norm_num
  exact ⟨h1, h2, (c5_exclusive_threshold (-(17897409/4000000)) 1 1).1 h1 h2⟩

/-- C6 (confirmed): with two venues and positive prices, any selected demo
opportunity buys on the venue whose effective price after its fee is the
strictly smaller one and sells on the other; the reverse direction is never
selected. -/
theorem c6_direction (p b : ℚ) (hp : 0 < p) (hb : 0 < b) (o : Demo.Opp)
    (h : Demo.check_arbitrage p b = some o) :
    (p / (1 - Demo.PANCAKESWAP_FEE) < b / (1 - Demo.BISWAP_FEE) →
        o.buy_dex = "PancakeSwap" ∧ o.sell_dex = "BiSwap")
    ∧ (b / (1 - Demo.BISWAP_FEE) < p / (1 - Demo.PANCAKESWAP_FEE) →
        o.buy_dex = "BiSwap" ∧ o.sell_dex = "PancakeSwap") := by
  have h' : Demo.check_arbitrage_gen Demo.MIN_PROFIT_THRESHOLD p b = some o := h
  rcases Demo.check_some_spec _ p b o h' with ⟨rfl, hn⟩ | ⟨rfl, hn⟩
  · have hb' : (100009/100 : ℚ) * p < (99560564775/100000000) * b := by
      rw [Demo.net1_eq] at hn
      unfold Demo.MIN_PROFIT_THRESHOLD at hn
      have h2 : (100009/100 : ℚ) < (99560564775/100000000) * b / p := by
        rw [mul_div_assoc]
        linarith
      exact (lt_div_iff₀ hp).mp h2
    constructor
    · intro _
      exact ⟨rfl, rfl⟩
    · intro heff
      exfalso
      unfold Demo.PANCAKESWAP_FEE Demo.BISWAP_FEE at heff
      rw [div_lt_div_iff₀ (by norm_num) (by norm_num)] at heff
      linarith
  · have hb' : (100009/100 : ℚ) * b < (99560564775/100000000) * p := by
      rw [Demo.net2_eq] at hn
      unfold Demo.MIN_PROFIT_THRESHOLD at hn
      have h2 : (100009/100 : ℚ) < (99560564775/100000000) * p / b := by
        rw [mul_div_assoc]
        linarith
      exact (lt_div_iff₀ hb).mp h2
    constructor
    · intro heff
      exfalso
      unfold Demo.PANCAKESWAP_FEE Demo.BISWAP_FEE at heff
      rw [div_lt_div_iff₀ (by norm_num) (by norm_num)] at heff
      linarith
    · intro _
      exact ⟨rfl, rfl⟩

/-- C6 (witness): at prices 600 and 610 PancakeSwap has the smaller
effective price and the selected opportunity indeed buys there. -/
theorem c6_direction_witness :
    (Demo.opp1 600 610).buy_dex = "PancakeSwap"
    ∧ (Demo.opp1 600 610).sell_dex = "BiSwap" := by
  have h : Demo.check_arbitrage 600 610 = some (Demo.opp1 600 610) := by
    refine (Demo.check_opp1_iff Demo.MIN_PROFIT_THRESHOLD 600 610).mpr ⟨?_, ?_⟩
    · rw [Demo.net1_eq]
      unfold Demo.MIN_PROFIT_THRESHOLD
      norm_num
    · rw [Demo.net1_eq, Demo.net2_eq]
      unfold Demo.MIN_PROFIT_THRESHOLD
      intro hcon
      norm_num at hcon
  refine (c6_direction 600 610 (by norm_num) (by norm_num) _ h).1 ?_
  unfold Demo.PANCAKESWAP_FEE Demo.BISWAP_FEE
  norm_num

/-- C7 (confirmed): holding quotes, positive prices, the borrow amount and
everything else fixed, net profit strictly decreases in the fixed execution
cost and in the borrow fee rate, in both the demo and the live profit
models. -/
theorem c7_monotonicity (L pb ps bf sf φ φ2 g g2 : ℚ)
    (hL : 0 < L) (hpb : 0 < pb) (hps : 0 < ps) (hbf : bf < 1) (hsf : sf < 1) :
    (g < g2 →
      (Demo.simulate_flash_arbitrage_gen L φ g2 pb ps bf sf).net_profit
          < (Demo.simulate_flash_arbitrage_gen L φ g pb ps bf sf).net_profit
      ∧ (Live.liveSim L φ g2 bf sf pb ps).net_profit
          < (Live.liveSim L φ g bf sf pb ps).net_profit)
    ∧ (φ < φ2 →
      (Demo.simulate_flash_arbitrage_gen L φ2 g pb ps bf sf).net_profit
          < (Demo.simulate_flash_arbitrage_gen L φ g pb ps bf sf).net_profit
      ∧ (Live.liveSim L φ2 g bf sf pb ps).net_profit
          < (Live.liveSim L φ g bf sf pb ps).net_profit) := by
  have hk : 0 < (1 - bf) * (1 - sf) * ps / pb := by
    have h1 : 0 < 1 - bf := by linarith
    have h2 : 0 < 1 - sf := by linarith
    positivity
  constructor
  · intro hg
    constructor
    · rw [Demo.net_gen_eq, Demo.net_gen_eq]
      linarith
    · rw [Live.liveSim_net_eq, Live.liveSim_net_eq]
      linarith
  · intro hφ
    have hLφ : L * φ < L * φ2 := mul_lt_mul_of_pos_left hφ hL
    constructor
    · rw [Demo.net_gen_eq, Demo.net_gen_eq]
      have e2 : ((L - L * φ2) / pb) * (1 - bf) * (1 - sf) * ps
          = (L - L * φ2) * ((1 - bf) * (1 - sf) * ps / pb) := by ring
      have e1 : ((L - L * φ) / pb) * (1 - bf) * (1 - sf) * ps
          = (L - L * φ) * ((1 - bf) * (1 - sf) * ps / pb) := by ring
      rw [e1, e2]
      have hmul := mul_lt_mul_of_pos_right
        (show L - L * φ2 < L - L * φ by linarith) hk
      linarith
    · rw [Live.liveSim_net_eq, Live.liveSim_net_eq]
      have e : ∀ x : ℚ, L * (1 + x) = L + L * x := fun x => by ring
      rw [e φ, e φ2]
      linarith

/-- C7 (witness): the monotonicity instantiated at the configured demo
values. -/
theorem c7_monotonicity_witness :
    ((8/100 : ℚ) < 9/100 →
      (Demo.simulate_flash_arbitrage_gen 1000 0 (9/100) 600 610
          (25/10000) (1/1000)).net_profit
        < (Demo.simulate_flash_arbitrage_gen 1000 0 (8/100) 600 610
          (25/10000) (1/1000)).net_profit
      ∧ (Live.liveSim 1000 0 (9/100) (25/10000) (1/1000) 600 610).net_profit
        < (Live.liveSim 1000 0 (8/100) (25/10000) (1/1000) 600 610).net_profit)
    ∧ ((0 : ℚ) < 9/10000 →
      (Demo.simulate_flash_arbitrage_gen 1000 (9/10000) (8/100) 600 610
          (25/10000) (1/1000)).net_profit
        < (Demo.simulate_flash_arbitrage_gen 1000 0 (8/100) 600 610
          (25/10000) (1/1000)).net_profit
      ∧ (Live.liveSim 1000 (9/10000) (8/100) (25/10000) (1/1000) 600 610).net_profit
        < (Live.liveSim 1000 0 (8/100) (25/10000) (1/1000) 600 610).net_profit) :=
  c7_monotonicity 1000 600 610 (25/10000) (1/1000) 0 (9/10000) (8/100) (9/100)
    (by norm_num) (by norm_num) (by norm_num) (by norm_num) (by norm_num)

/-- C8 (counterexample): at identical unit prices the demo net profit is
-4.47435225, not minus the fixed execution cost -0.08: the DEX fees and the
flash loan fee also reduce it. -/
theorem c8_counterexample : Demo.net1 1 1 ≠ -Demo.GAS_COST_USD := by
  rw [Demo.net1_eq]
  unfold Demo.GAS_COST_USD
  norm_num

/-- C8 (amended): at identical positive prices every evaluated demo
simulation nets exactly -4.47435225 (strictly negative: the fixed execution
cost plus the trading and flash loan fee losses), and no opportunity is
selected for any threshold at least zero. -/
theorem c8_identical_prices (θ p : ℚ) (hθ : 0 ≤ θ) (hp : 0 < p) :
    Demo.net1 p p = -(17897409/4000000)
    ∧ Demo.net2 p p = -(17897409/4000000)
    ∧ Demo.check_arbitrage_gen θ p p = none := by
  have hd : p / p = 1 := div_self hp.ne'
  have h1 : Demo.net1 p p = -(17897409/4000000) := by
    rw [Demo.net1_eq, hd]; norm_num
  have h2 : Demo.net2 p p = -(17897409/4000000) := by
    rw [Demo.net2_eq, hd]; norm_num
  refine ⟨h1, h2, (Demo.check_none_iff θ p p).mpr ⟨?_, ?_⟩⟩
  · rw [h1]; linarith
  · rw [h2]; linarith

/-- C8 (witness): the amended statement at threshold zero and price 600. -/
theorem c8_identical_prices_witness :
    Demo.net1 600 600 = -(17897409/4000000)
    ∧ Demo.net2 600 600 = -(17897409/4000000)
    ∧ Demo.check_arbitrage_gen 0 600 600 = none :=
  c8_identical_prices 0 600 (le_refl 0) (by norm_num)

/-- A truthy stored price is nonzero. -/
lemma Demo.truthy_ne_zero (z : Option ℚ) (x : ℚ) (h : Demo.truthyPrice z = some x) :
    x ≠ 0 := by
  cases z with
  | none => exact Option.noConfusion h
  | some p =>
      by_cases hp : p = 0
      · simp [Demo.truthyPrice, hp] at h
      · simp only [Demo.truthyPrice, if_neg hp, Option.some.injEq] at h
        subst h
        exact hp

/-- The dictionary has two keys exactly when both fields are present. -/
lemma Demo.size_eq_two_iff (d : Demo.PriceDict) :
    d.size = 2 ↔ (∃ x, d.pancakeswap = some x) ∧ (∃ y, d.biswap = some y) := by
  obtain ⟨a, b⟩ := d
  cases a <;> cases b <;> simp [Demo.PriceDict.size]

/-- C9 (counterexample): the claimed property fails because a returned live
opportunity never has negative estimated net profit: with the configured
fees and the 0.37 percent spread pre-filter, any pair passing the filter
nets at least about 0.109 BUSD. -/
theorem c9_counterexample : ¬ SpecModel.claimedPropertyC9 := by
  rintro ⟨-, pw, bw, o, h, hneg⟩
  exact absurd hneg (not_lt.2 (Live.find_opp_spec pw bw o h).2.2)

/-- C9 (amended): a returned live opportunity always clears the spread
pre-filter strictly, no evaluated ordered pair has a strictly larger
absolute spread, and - correcting the claim - its estimated net profit is
always non-negative, since the spread pre-filter happens to imply
profitability under the configured fees. -/
theorem c9_spread_selection (pw bw : Option ℕ) (o : Live.LiveOpp)
    (h : (Live.find_arbitrage_opportunity pw bw).opportunity = some o) :
    Live.min_spread_pct < |o.spread|
    ∧ (∀ kv ∈ (Live.find_arbitrage_opportunity pw bw).spreads, |kv.2| ≤ |o.spread|)
    ∧ 0 ≤ o.estimated_net_profit :=
  Live.find_opp_spec pw bw o h

/-- C9 (witness): the amended statement at quotes of 600 and 610. -/
theorem c9_spread_selection_witness :
    Live.min_spread_pct < |liveOppAt600x610.spread|
    ∧ (∀ kv ∈ (Live.find_arbitrage_opportunity (some (600 * 10^18))
        (some (610 * 10^18))).spreads, |kv.2| ≤ |liveOppAt600x610.spread|)
    ∧ 0 ≤ liveOppAt600x610.estimated_net_profit :=
  c9_spread_selection (some (600 * 10^18)) (some (610 * 10^18)) liveOppAt600x610
    Live.find_600_610_opp

/-- C10 (confirmed): whenever the demo fetcher returns a dictionary it
holds both keys with nonzero prices, never a partial one-venue result, and
the unguarded key lookups at the top of check_arbitrage succeed on it. -/
theorem c10_fetcher_shape (c : Bool) (pr br : Option (ℕ × ℕ)) (d : Demo.PriceDict)
    (h : Demo.get_wbnb_price_busd c pr br = some d) :
    (∃ p, d.pancakeswap = some p ∧ p ≠ 0)
    ∧ (∃ q, d.biswap = some q ∧ q ≠ 0)
    ∧ (Demo.check_arbitrage_onDict d).isSome := by
  cases c
  · exact Option.noConfusion h
  · have h' : (if (Demo.buildPrices pr br).size = 2
        then some (Demo.buildPrices pr br) else none) = some d := h
    by_cases hsz : (Demo.buildPrices pr br).size = 2
    · rw [if_pos hsz] at h'
      obtain rfl := Option.some.inj h'
      obtain ⟨⟨x, hx⟩, ⟨y, hy⟩⟩ := (Demo.size_eq_two_iff _).mp hsz
      have hx' : Demo.truthyPrice (Demo.get_price_from_router pr) = some x := hx
      have hy' : Demo.truthyPrice (Demo.get_price_from_router br) = some y := hy
      have e1 : Demo.lookupPrice (Demo.buildPrices pr br) "pancakeswap" = some x := by
        unfold Demo.lookupPrice
        rw [if_pos rfl]
        exact hx
      have e2 : Demo.lookupPrice (Demo.buildPrices pr br) "biswap" = some y := by
        unfold Demo.lookupPrice
        rw [if_neg (by decide : ¬ ("biswap" : String) = "pancakeswap"), if_pos rfl]
        exact hy
      refine ⟨⟨x, hx, Demo.truthy_ne_zero _ _ hx'⟩,
        ⟨y, hy, Demo.truthy_ne_zero _ _ hy'⟩, ?_⟩
      unfold Demo.check_arbitrage_onDict
      rw [e1, e2]
      rfl
    · rw [if_neg hsz] at h'
      exact Option.noConfusion h'

/-- Price fetch at a quote of 600 BUSD per WBNB. -/
lemma Demo.price_600wei :
    Demo.get_price_from_router (some (10^18, 600 * 10^18)) = some 600 := by
  simp only [Demo.get_price_from_router]
  rw [if_neg (by norm_num : ¬ ((10^18 : ℕ), 600 * 10^18).1 = 0)]
  norm_num

/-- Price fetch at a quote of 610 BUSD per WBNB. -/
lemma Demo.price_610wei :
    Demo.get_price_from_router (some (10^18, 610 * 10^18)) = some 610 := by
  simp only [Demo.get_price_from_router]
  rw [if_neg (by norm_num : ¬ ((10^18 : ℕ), 610 * 10^18).1 = 0)]
  norm_num

/-- The fetcher output at quotes of 600 and 610. -/
lemma Demo.wbnb_600_610 :
    Demo.get_wbnb_price_busd true (some (10^18, 600 * 10^18)) (some (10^18, 610 * 10^18))
      = some ⟨some 600, some 610⟩ := by
  have hb : Demo.buildPrices (some (10^18, 600 * 10^18)) (some (10^18, 610 * 10^18))
      = ⟨some 600, some 610⟩ := by
    unfold Demo.buildPrices
    rw [Demo.price_600wei, Demo.price_610wei]
    have t1 : Demo.truthyPrice (some (600 : ℚ)) = some 600 := by
      simp only [Demo.truthyPrice]
      rw [if_neg (by norm_num : ¬ (600 : ℚ) = 0)]
    have t2 : Demo.truthyPrice (some (610 : ℚ)) = some 610 := by
      simp only [Demo.truthyPrice]
      rw [if_neg (by norm_num : ¬ (610 : ℚ) = 0)]
    rw [t1, t2]
  show (if (Demo.buildPrices (some (10^18, 600 * 10^18))
        (some (10^18, 610 * 10^18))).size = 2
      then some (Demo.buildPrices (some (10^18, 600 * 10^18))
        (some (10^18, 610 * 10^18)))
      else none)
    = some ⟨some 600, some 610⟩
  rw [hb]
  rw [if_pos (show ({ pancakeswap := some 600, biswap := some 610 } :
    Demo.PriceDict).size = 2 from rfl)]

/-- C10 (witness): the fetcher output at quotes of 600 and 610 satisfies
the shape guarantee. -/
theorem c10_fetcher_shape_witness :
    (∃ p, (⟨some 600, some 610⟩ : Demo.PriceDict).pancakeswap = some p ∧ p ≠ 0)
    ∧ (∃ q, (⟨some 600, some 610⟩ : Demo.PriceDict).biswap = some q ∧ q ≠ 0)
    ∧ (Demo.check_arbitrage_onDict ⟨some 600, some 610⟩).isSome :=
  c10_fetcher_shape true (some (10^18, 600 * 10^18)) (some (10^18, 610 * 10^18))
    ⟨some 600, some 610⟩ Demo.wbnb_600_610
